import Mathlib

/-!
Verification development for the DuckLake API gateway
(ducklake-api-gateway/server.py).

The gateway keeps one long-lived analytical-engine connection in the
process-wide variable `db_conn` and answers point-in-time balance and
holder queries over three catalog tables:
`native_balances_snapshot_v1`, `trustlines_snapshot_v1` and
`ledgers_row_v2`.  Each table is embedded here as a list of rows, each
HTTP handler as a pure function from that table state (plus the handler
arguments) to its response, and SQL aggregate/filter semantics
(`MAX` over an empty set is NULL, `COUNT` is 0, ...) are made explicit
with `Option`.
-/

namespace DuckLakeGateway

/-- An engine connection handle, opaque to the gateway logic. -/
abbrev Handle := Nat

/-- The message of an exception raised by `init_ducklake_connection`. -/
abbrev InitError := String

/-- A row of `catalog.testnet.native_balances_snapshot_v1`, with the
columns the gateway reads.  Amounts are scaled 64-bit integers
(stroops, scale 10^7). -/
structure NativeRow where
  account_id : String
  balance : Int
  buying_liabilities : Int
  selling_liabilities : Int
  ledger_sequence : Nat
deriving DecidableEq

/-- A row of `catalog.testnet.trustlines_snapshot_v1`, with the columns
the gateway reads.  The balance columns are read through
`CAST(... AS DOUBLE)` in the SQL; the stored value is a scaled
integer. -/
structure TrustlineRow where
  account_id : String
  asset_code : String
  asset_issuer : String
  balance : Int
  buying_liabilities : Int
  selling_liabilities : Int
  authorized : Bool
  ledger_sequence : Nat
deriving DecidableEq

/-- A row of `catalog.testnet.ledgers_row_v2`, with the columns used by
the stats endpoint. -/
structure LedgerRow where
  sequence : Nat
  transaction_count : Nat
  successful_tx_count : Nat
  failed_tx_count : Nat
deriving DecidableEq

/-- The catalog state visible through the attached connection. -/
structure DB where
  native_balances : List NativeRow
  trustlines : List TrustlineRow
  ledgers : List LedgerRow
deriving DecidableEq

/-! ### SQL aggregate semantics

`MAX`, `MIN`, `SUM` and `AVG` over zero rows yield NULL (`none`);
`COUNT(*)` yields 0.  The fold order matches a scan over the row
list. -/

/-- One accumulation step of SQL `MAX`. -/
def maxStep (acc : Option Nat) (n : Nat) : Option Nat :=
  match acc with
  | none => some n
  | some m => some (max m n)

/-- SQL `MAX` over a column: NULL on the empty set. -/
def maxOpt (l : List Nat) : Option Nat :=
  l.foldl maxStep none

/-- One accumulation step of SQL `MIN`. -/
def minStep (acc : Option Nat) (n : Nat) : Option Nat :=
  match acc with
  | none => some n
  | some m => some (min m n)

/-- SQL `MIN` over a column: NULL on the empty set. -/
def minOpt (l : List Nat) : Option Nat :=
  l.foldl minStep none

/-- SQL `SUM` over a column: NULL on the empty set. -/
def sumOpt (l : List Nat) : Option Nat :=
  match l with
  | [] => none
  | _ => some (l.foldl (fun a n => a + n) 0)

/-- SQL `AVG` over a column: NULL on the empty set, otherwise the exact
rational mean. -/
def avgOpt (l : List Nat) : Option ℚ :=
  match l with
  | [] => none
  | _ => some ((l.foldl (fun a n => a + n) 0 : ℚ) / l.length)

theorem foldl_maxStep_some (l : List Nat) (m : Nat) :
    ∃ k, l.foldl maxStep (some m) = some k := by
  induction l generalizing m with
  | nil => exact ⟨m, rfl⟩
  | cons n t ih => exact ih (max m n)

theorem maxOpt_eq_none_iff (l : List Nat) : maxOpt l = none ↔ l = [] := by
  cases l with
  | nil => simp [maxOpt]
  | cons n t =>
    simp only [maxOpt, List.foldl_cons, maxStep]
    obtain ⟨k, hk⟩ := foldl_maxStep_some t n
    simp [hk]

/-! ### Connection lifecycle (`get_connection`, server.py lines 91-96)

The Python source is

    def get_connection():
        global db_conn
        if db_conn is None:
            db_conn = init_ducklake_connection()
        return db_conn

`init_ducklake_connection` performs the attach/warm-up sequence and
either returns a handle or raises; its outcome is passed in as
`initOutcome`.  If it raises, the assignment to `db_conn` does not
happen (the state stays `none`) and the exception propagates.  The
`ranInit` field records whether the attach/warm-up sequence ran during
this call. -/

/-- The observable outcome of one `get_connection()` call: the value of
`db_conn` afterwards, the returned handle or propagated exception, and
whether `init_ducklake_connection` was invoked. -/
structure AcquireResult where
  state : Option Handle
  result : Except InitError Handle
  ranInit : Bool

/-- `get_connection()` as a function of the current `db_conn` and of the
outcome `init_ducklake_connection()` would have if called. -/
def get_connection (db_conn : Option Handle)
    (initOutcome : Except InitError Handle) : AcquireResult :=
  match db_conn with
  | some h => { state := some h, result := Except.ok h, ranInit := false }
  | none =>
    match initOutcome with
    | Except.ok h => { state := some h, result := Except.ok h, ranInit := true }
    | Except.error e => { state := none, result := Except.error e, ranInit := true }

/-! ### Health endpoint (`health`, server.py lines 98-105) -/

/-- The JSON body of `GET /health` (the timestamp field carries no
logical content and is omitted), together with the HTTP status code
Flask sends for it. -/
structure HealthResponse where
  status : String
  connection : String
  httpCode : Nat
deriving DecidableEq

/-- The `/health` handler: it reads `db_conn` and builds the response;
it never calls `get_connection`.  Returned as (state after the call,
response) to make the absence of mutation explicit. -/
def health (db_conn : Option Handle) : Option Handle × HealthResponse :=
  (db_conn,
    { status := "healthy",
      connection := if db_conn.isSome then "active" else "not_initialized",
      httpCode := 200 })

/-! ### Balances endpoint (`get_account_balances`, server.py lines 197-274) -/

/-- The errors a handler surfaces: `notFound404` is the explicit
`jsonify error, 404` branch; `queryError500` is an unhandled engine
exception that Flask turns into an HTTP 500. -/
inductive ApiError
  | notFound404
  | queryError500
deriving DecidableEq

/-- One element of the `balances` array in the `/balances` response.
Amounts are the scaled-down decimal values; they are modelled as exact
rationals. -/
structure BalanceEntry where
  asset_code : String
  asset_issuer : String
  balance : ℚ
  buying_liabilities : ℚ
  selling_liabilities : ℚ
  available : ℚ
  ledger_sequence : Nat
deriving DecidableEq

/-- The `/balances/(account_id)` response body (the timing field is
omitted). -/
structure BalancesResponse where
  account_id : String
  ledger_sequence : Nat
  balances : List BalanceEntry
  count : Nat
deriving DecidableEq

/-- The resolution step of `get_account_balances`:
`SELECT MAX(ledger_sequence) FROM native_balances_snapshot_v1 WHERE
account_id = ...` (server.py lines 207-213). -/
def maxLedgerForAccount (db : DB) (account_id : String) : Option Nat :=
  maxOpt ((db.native_balances.filter
    (fun r => r.account_id == account_id)).map (fun r => r.ledger_sequence))

/-- The SELECT list of the XLM query (server.py lines 223-235): integer
subtraction of the liabilities, then division by 10000000.0. -/
def shapeNative (r : NativeRow) : BalanceEntry :=
  { asset_code := "XLM",
    asset_issuer := "native",
    balance := (r.balance : ℚ) / 10000000,
    buying_liabilities := (r.buying_liabilities : ℚ) / 10000000,
    selling_liabilities := (r.selling_liabilities : ℚ) / 10000000,
    available :=
      ((r.balance - r.buying_liabilities - r.selling_liabilities : Int) : ℚ) / 10000000,
    ledger_sequence := r.ledger_sequence }

/-- The SELECT list of the trustline query (server.py lines 239-252):
each operand is cast to DOUBLE first, the subtraction happens on the
cast values, then division by 10000000.0.  The casts are modelled as
exact. -/
def shapeToken (r : TrustlineRow) : BalanceEntry :=
  { asset_code := r.asset_code,
    asset_issuer := r.asset_issuer,
    balance := (r.balance : ℚ) / 10000000,
    buying_liabilities := (r.buying_liabilities : ℚ) / 10000000,
    selling_liabilities := (r.selling_liabilities : ℚ) / 10000000,
    available :=
      ((r.balance : ℚ) - (r.buying_liabilities : ℚ) - (r.selling_liabilities : ℚ)) / 10000000,
    ledger_sequence := r.ledger_sequence }

/-- Rows of the XLM query: `WHERE account_id = ... AND
ledger_sequence = latest`. -/
def xlmRows (db : DB) (account_id : String) (latest : Nat) : List BalanceEntry :=
  (db.native_balances.filter
    (fun r => r.account_id == account_id && r.ledger_sequence == latest)).map shapeNative

/-- Rows of the trustline query: `WHERE account_id = ... AND
ledger_sequence = latest AND CAST(balance AS DOUBLE) > 0`.  An integer
casts to a positive double exactly when it is positive. -/
def tokenRows (db : DB) (account_id : String) (latest : Nat) : List BalanceEntry :=
  (db.trustlines.filter
    (fun r => r.account_id == account_id && r.ledger_sequence == latest
      && decide (0 < r.balance))).map shapeToken

/-- The `balances` array: the XLM rows followed by the trustline rows
(`balances.extend` twice, server.py lines 264-266). -/
def balancesList (db : DB) (account_id : String) (latest : Nat) : List BalanceEntry :=
  xlmRows db account_id latest ++ tokenRows db account_id latest

/-- The `/balances/(account_id)` handler.  The sequence is resolved once
from the native table; a NULL resolution is the 404 branch; otherwise
both queries are pinned to the resolved sequence and the two row lists
are concatenated (XLM first). -/
def get_account_balances (db : DB) (account_id : String) :
    Except ApiError BalancesResponse :=
  match maxLedgerForAccount db account_id with
  | none => Except.error ApiError.notFound404
  | some latest =>
    Except.ok
      { account_id := account_id,
        ledger_sequence := latest,
        balances := balancesList db account_id latest,
        count := (balancesList db account_id latest).length }

/-! ### Query dispatch as text (server.py lines 207-211)

The source builds every query by f-string interpolation and calls
`conn.execute(query)` with no parameter-binding argument.  The
resolution query of `get_account_balances` is embedded literally as a
function from the caller-supplied account id to the SQL text sent to
the engine, and the dispatch as (text, bound-parameter list). -/

/-- The single-quote character of the interpolated SQL literal. -/
def sqlQuote : String := String.singleton (Char.ofNat 39)

/-- The text of `latest_ledger_query`, as the f-string builds it
(whitespace normalised): the caller-supplied `account_id` is spliced
between quotes into the statement. -/
def latest_ledger_query (account_id : String) : String :=
  "SELECT MAX(ledger_sequence) as latest FROM catalog.testnet.native_balances_snapshot_v1 WHERE account_id = "
    ++ sqlQuote ++ account_id ++ sqlQuote

/-- `conn.execute(latest_ledger_query)`: the statement text and the
list of bound parameters passed alongside it (the source passes
none). -/
def dispatchLatestLedger (account_id : String) : String × List String :=
  (latest_ledger_query account_id, [])

/-! ### Holders endpoint (`get_asset_holders`, server.py lines 276-327) -/

/-- One element of the `holders` array. -/
structure HolderEntry where
  account_id : String
  asset_code : String
  asset_issuer : String
  balance : ℚ
  authorized : Bool
deriving DecidableEq

/-- The `/assets/(code)/holders` response body (timing omitted). -/
structure HoldersResponse where
  asset_code : String
  ledger_sequence : Nat
  holders : List HolderEntry
  count : Nat
deriving DecidableEq

/-- The resolution step of `get_asset_holders`:
`SELECT MAX(ledger_sequence) FROM trustlines_snapshot_v1` over the whole
table (server.py lines 291-295). -/
def maxLedgerTrustlines (db : DB) : Option Nat :=
  maxOpt (db.trustlines.map (fun r => r.ledger_sequence))

/-- The SELECT list of the holders query. -/
def shapeHolder (r : TrustlineRow) : HolderEntry :=
  { account_id := r.account_id,
    asset_code := r.asset_code,
    asset_issuer := r.asset_issuer,
    balance := (r.balance : ℚ) / 10000000,
    authorized := r.authorized }

/-- Descending insertion for `ORDER BY CAST(balance AS DOUBLE) DESC`. -/
def insertDesc (r : TrustlineRow) : List TrustlineRow → List TrustlineRow
  | [] => [r]
  | x :: xs => if x.balance < r.balance then r :: x :: xs else x :: insertDesc r xs

/-- `ORDER BY CAST(balance AS DOUBLE) DESC` over the filtered rows. -/
def sortDesc : List TrustlineRow → List TrustlineRow
  | [] => []
  | x :: xs => insertDesc x (sortDesc xs)

/-- The `/assets/(code)/holders` handler.  The source reads
`fetchone()[0]` of the table-wide MAX without a NULL check and splices
the Python value into the query text; when the table is empty the
spliced value is `None`, the statement then references an unknown
column `None`, and execution raises — surfaced as HTTP 500
(`queryError500`).  Otherwise the holders query is pinned to the
resolved sequence, filtered by asset code and minimum balance, sorted
descending and truncated to `limit`. -/
def get_asset_holders (db : DB) (asset_code : String) (limit : Nat)
    (min_balance : ℚ) : Except ApiError HoldersResponse :=
  match maxLedgerTrustlines db with
  | none => Except.error ApiError.queryError500
  | some latest =>
    let rows := db.trustlines.filter
      (fun r => r.asset_code == asset_code && r.ledger_sequence == latest
        && decide (min_balance < (r.balance : ℚ) / 10000000))
    let holders := ((sortDesc rows).take limit).map shapeHolder
    Except.ok
      { asset_code := asset_code,
        ledger_sequence := latest,
        holders := holders,
        count := holders.length }

/-! ### Network stats endpoint (`get_network_stats`, server.py
lines 329-363) -/

/-- The `stats` object of the `/stats/network` response.  `COUNT(*)` is
always a number; the other six aggregates are NULL (`none`) when no row
matches `sequence > 950000`. -/
structure NetworkStats where
  ledger_count : Nat
  first_ledger : Option Nat
  last_ledger : Option Nat
  total_transactions : Option Nat
  successful_transactions : Option Nat
  failed_transactions : Option Nat
  avg_tx_per_ledger : Option ℚ
deriving DecidableEq

/-- The rows matching the stats query's `WHERE sequence > 950000`. -/
def recentRows (db : DB) : List LedgerRow :=
  db.ledgers.filter (fun r => decide (950000 < r.sequence))

/-- The `/stats/network` handler: one aggregate query over
`ledgers_row_v2` restricted to `sequence > 950000`. -/
def get_network_stats (db : DB) : NetworkStats :=
  { ledger_count := (recentRows db).length,
    first_ledger := minOpt ((recentRows db).map (fun r => r.sequence)),
    last_ledger := maxOpt ((recentRows db).map (fun r => r.sequence)),
    total_transactions := sumOpt ((recentRows db).map (fun r => r.transaction_count)),
    successful_transactions := sumOpt ((recentRows db).map (fun r => r.successful_tx_count)),
    failed_transactions := sumOpt ((recentRows db).map (fun r => r.failed_tx_count)),
    avg_tx_per_ledger := avgOpt ((recentRows db).map (fun r => r.transaction_count)) }

/-! ### The available-balance arithmetic as written in the SQL
(server.py lines 230 and 246)

To speak about where the integer-to-double conversion sits relative to
the subtraction, the two `available` SELECT expressions are embedded as
syntax trees, exactly as the SQL text writes them. -/

/-- Arithmetic SELECT expressions over integer columns: column
references, integer literals, double literals, `CAST(... AS DOUBLE)`,
subtraction and division. -/
inductive SqlExpr
  | col (name : String)
  | intLit (n : Int)
  | doubleLit (q : ℚ)
  | castDouble (e : SqlExpr)
  | sub (a b : SqlExpr)
  | div (a b : SqlExpr)
deriving DecidableEq

/-- An expression of integer type: columns, integer literals and
subtractions of such. -/
def isIntExpr : SqlExpr → Bool
  | SqlExpr.col _ => true
  | SqlExpr.intLit _ => true
  | SqlExpr.sub a b => isIntExpr a && isIntExpr b
  | _ => false

/-- Modelled from the spec: every subtraction in the expression is
performed in the scaled-integer domain, before any floating
conversion — i.e. both operands of each `sub` node are of integer
type. -/
def intSubOnly : SqlExpr → Bool
  | SqlExpr.col _ => true
  | SqlExpr.intLit _ => true
  | SqlExpr.doubleLit _ => true
  | SqlExpr.castDouble e => intSubOnly e
  | SqlExpr.sub a b => isIntExpr a && isIntExpr b
  | SqlExpr.div a b => intSubOnly a && intSubOnly b

/-- Exact-arithmetic evaluation of a SELECT expression under an
assignment of integer values to columns; `CAST(... AS DOUBLE)` is the
identity in this idealised (rounding-free) model. -/
def evalQ (env : String → Int) : SqlExpr → ℚ
  | SqlExpr.col name => (env name : ℚ)
  | SqlExpr.intLit n => (n : ℚ)
  | SqlExpr.doubleLit q => q
  | SqlExpr.castDouble e => evalQ env e
  | SqlExpr.sub a b => evalQ env a - evalQ env b
  | SqlExpr.div a b => evalQ env a / evalQ env b

/-- The `available` expression of the XLM query (server.py line 230):
`(balance - buying_liabilities - selling_liabilities) / 10000000.0`. -/
def nativeAvailableExpr : SqlExpr :=
  SqlExpr.div
    (SqlExpr.sub
      (SqlExpr.sub (SqlExpr.col "balance") (SqlExpr.col "buying_liabilities"))
      (SqlExpr.col "selling_liabilities"))
    (SqlExpr.doubleLit 10000000)

/-- The `available` expression of the trustline query (server.py
line 246): `(CAST(balance AS DOUBLE) - CAST(buying_liabilities AS
DOUBLE) - CAST(selling_liabilities AS DOUBLE)) / 10000000.0`. -/
def trustlineAvailableExpr : SqlExpr :=
  SqlExpr.div
    (SqlExpr.sub
      (SqlExpr.sub
        (SqlExpr.castDouble (SqlExpr.col "balance"))
        (SqlExpr.castDouble (SqlExpr.col "buying_liabilities")))
      (SqlExpr.castDouble (SqlExpr.col "selling_liabilities")))
    (SqlExpr.doubleLit 10000000)

/-! ### Helper lemmas -/

theorem mem_xlmRows (db : DB) (account_id : String) (latest : Nat) (e : BalanceEntry) :
    e ∈ xlmRows db account_id latest ↔
      ∃ r, r ∈ db.native_balances ∧ r.account_id = account_id ∧
        r.ledger_sequence = latest ∧ shapeNative r = e := by
  unfold xlmRows
  constructor
  · intro h
    rcases List.mem_map.mp h with ⟨r, hr, he⟩
    rcases List.mem_filter.mp hr with ⟨hmem, hp⟩
    simp only [Bool.and_eq_true, beq_iff_eq] at hp
    exact ⟨r, hmem, hp.1, hp.2, he⟩
  · rintro ⟨r, hmem, h1, h2, he⟩
    exact List.mem_map.mpr ⟨r, List.mem_filter.mpr ⟨hmem, by simp [h1, h2]⟩, he⟩

theorem mem_tokenRows (db : DB) (account_id : String) (latest : Nat) (e : BalanceEntry) :
    e ∈ tokenRows db account_id latest ↔
      ∃ r, r ∈ db.trustlines ∧ r.account_id = account_id ∧
        r.ledger_sequence = latest ∧ 0 < r.balance ∧ shapeToken r = e := by
  unfold tokenRows
  constructor
  · intro h
    rcases List.mem_map.mp h with ⟨r, hr, he⟩
    rcases List.mem_filter.mp hr with ⟨hmem, hp⟩
    simp only [Bool.and_eq_true, beq_iff_eq, decide_eq_true_eq] at hp
    exact ⟨r, hmem, hp.1.1, hp.1.2, hp.2, he⟩
  · rintro ⟨r, hmem, h1, h2, h3, he⟩
    exact List.mem_map.mpr ⟨r, List.mem_filter.mpr ⟨hmem, by simp [h1, h2, h3]⟩, he⟩

theorem get_account_balances_ok (db : DB) (account_id : String)
    (resp : BalancesResponse)
    (h : get_account_balances db account_id = Except.ok resp) :
    maxLedgerForAccount db account_id = some resp.ledger_sequence ∧
    resp.balances = balancesList db account_id resp.ledger_sequence := by
  unfold get_account_balances at h
  cases hm : maxLedgerForAccount db account_id with
  | none =>
    rw [hm] at h
    simp at h
  | some latest =>
    rw [hm] at h
    simp only [Except.ok.injEq] at h
    subst h
    exact ⟨rfl, rfl⟩

/-! ### Claim theorems -/

/-- C1: for every account, when `GET /balances/(account_id)` succeeds,
every row of the returned balances array (native and trustline alike)
carries the same `ledger_sequence`, equal to the single value resolved
once at the start of the request by `maxLedgerForAccount`. -/
theorem balances_single_ledger_sequence (db : DB) (account_id : String)
    (resp : BalancesResponse)
    (h : get_account_balances db account_id = Except.ok resp) :
    maxLedgerForAccount db account_id = some resp.ledger_sequence ∧
    ∀ e ∈ resp.balances, e.ledger_sequence = resp.ledger_sequence := by
  obtain ⟨hm, hb⟩ := get_account_balances_ok db account_id resp h
  refine ⟨hm, ?_⟩
  intro e he
  rw [hb] at he
  rcases List.mem_append.mp he with h1 | h1
  · rcases (mem_xlmRows db account_id resp.ledger_sequence e).mp h1 with
      ⟨r, _, _, h2, he2⟩
    rw [← he2]
    exact h2
  · rcases (mem_tokenRows db account_id resp.ledger_sequence e).mp h1 with
      ⟨r, _, _, h2, _, he2⟩
    rw [← he2]
    exact h2

/-- Concrete catalog state for the C1 witness: one native row and one
trustline row for the same account at sequence 10. -/
def balancesDB : DB :=
  { native_balances := [⟨"GACC", 50, 5, 5, 10⟩],
    trustlines := [⟨"GACC", "USD", "GISS", 30, 0, 0, true, 10⟩],
    ledgers := [] }

/-- The response `get_account_balances balancesDB "GACC"` produces. -/
def balancesResp : BalancesResponse :=
  { account_id := "GACC",
    ledger_sequence := 10,
    balances := [shapeNative ⟨"GACC", 50, 5, 5, 10⟩,
                 shapeToken ⟨"GACC", "USD", "GISS", 30, 0, 0, true, 10⟩],
    count := 2 }

/-- Witness for C1 at a concrete two-table answer. -/
theorem balances_single_ledger_sequence_witness :
    get_account_balances balancesDB "GACC" = Except.ok balancesResp ∧
    (maxLedgerForAccount balancesDB "GACC" = some balancesResp.ledger_sequence ∧
     ∀ e ∈ balancesResp.balances, e.ledger_sequence = balancesResp.ledger_sequence) :=
  ⟨rfl, balances_single_ledger_sequence balancesDB "GACC" balancesResp rfl⟩

/-- C2: the resolution query of `get_account_balances` embeds the
caller-supplied account id into the statement text (the text differs
between two caller values) and `conn.execute` is given no bound
parameters — the code concatenates, contradicting the bound-parameter
requirement. -/
theorem query_text_embeds_caller_value :
    (dispatchLatestLedger "GAAA").2 = [] ∧
    (dispatchLatestLedger "GBBB").2 = [] ∧
    latest_ledger_query "GAAA" ≠ latest_ledger_query "GBBB" := by
  refine ⟨rfl, rfl, ?_⟩
  decide

/-- C3: `get_connection` is idempotent once initialized — if `db_conn`
already holds a handle, the call returns that handle, leaves the state
unchanged, and does not run the attach/warm-up sequence, whatever a
fresh initialization attempt would have produced. -/
theorem acquire_idempotent_when_ready (h : Handle)
    (initOutcome : Except InitError Handle) :
    get_connection (some h) initOutcome =
      { state := some h, result := Except.ok h, ranInit := false } :=
  rfl

/-- C4: after a failed initialization attempt `db_conn` is still `none`,
so the next `get_connection` call runs the attach/warm-up sequence
again (`ranInit = true`) and its outcome follows the fresh attempt —
initialization IS automatically retried, and no recorded error is
replayed, contrary to the claim. -/
theorem acquire_reattempts_after_failure :
    get_connection none (Except.error "attach failed") =
      { state := none, result := Except.error "attach failed", ranInit := true } ∧
    get_connection none (Except.ok 7) =
      { state := some 7, result := Except.ok 7, ranInit := true } :=
  ⟨rfl, rfl⟩

/-- C10: `GET /health` returns HTTP 200 with status `healthy` in every
connection state, distinguishes the states only through the
`connection` field, and leaves the connection handle untouched. -/
theorem health_pure_and_healthy (db_conn : Option Handle) :
    (health db_conn).1 = db_conn ∧
    (health db_conn).2.status = "healthy" ∧
    (health db_conn).2.httpCode = 200 ∧
    (health db_conn).2.connection =
      (if db_conn.isSome then "active" else "not_initialized") :=
  ⟨rfl, rfl, rfl, rfl⟩

/-- C5: when the native snapshot table has no row for the account, the
resolution step yields NULL and `GET /balances/(account_id)` fails with
the explicit 404 branch — no balance query runs with a default
sequence; and when any row exists (a zero balance included), the
request does not 404, so "no history" is distinct from "exists with
zero balance". -/
theorem balances_notfound_when_no_history (db : DB) (account_id : String) :
    ((∀ r ∈ db.native_balances, r.account_id ≠ account_id) →
      get_account_balances db account_id = Except.error ApiError.notFound404) ∧
    ((∃ r ∈ db.native_balances, r.account_id = account_id) →
      get_account_balances db account_id ≠ Except.error ApiError.notFound404) := by
  constructor
  · intro hno
    have hf : db.native_balances.filter (fun r => r.account_id == account_id) = [] := by
      rw [List.filter_eq_nil_iff]
      intro r hr
      simpa using hno r hr
    unfold get_account_balances maxLedgerForAccount
    rw [hf]
    rfl
  · rintro ⟨r, hr, h1⟩ hcon
    unfold get_account_balances at hcon
    cases hm : maxLedgerForAccount db account_id with
    | none =>
      unfold maxLedgerForAccount at hm
      rw [maxOpt_eq_none_iff, List.map_eq_nil_iff] at hm
      have hmem : r ∈ db.native_balances.filter (fun r => r.account_id == account_id) :=
        List.mem_filter.mpr ⟨hr, by simp [h1]⟩
      rw [hm] at hmem
      cases hmem
    | some latest =>
      rw [hm] at hcon
      simp at hcon

/-- Catalog state for the C5 witness: history for one account only,
plus a second account whose only row has balance zero. -/
def notFoundDB : DB :=
  { native_balances := [⟨"GOTHER", 50, 0, 0, 7⟩, ⟨"GZERO", 0, 0, 0, 7⟩],
    trustlines := [],
    ledgers := [] }

/-- Witness for C5: an account with no rows is a 404; an account whose
only row has balance zero is not. -/
theorem balances_notfound_when_no_history_witness :
    get_account_balances notFoundDB "GMISSING" = Except.error ApiError.notFound404 ∧
    get_account_balances notFoundDB "GZERO" ≠ Except.error ApiError.notFound404 :=
  ⟨(balances_notfound_when_no_history notFoundDB "GMISSING").1 (by decide),
   (balances_notfound_when_no_history notFoundDB "GZERO").2 (by decide)⟩

/-- C9: in a successful `/balances` answer, a trustline row of the
account at the resolved sequence whose balance is not strictly positive
is absent from the returned list (its issuer being distinct from the
literal `native` the XLM rows use), while a native row at the resolved
sequence is included whatever its balance value. -/
theorem balances_positive_trustlines_only (db : DB) (account_id : String)
    (resp : BalancesResponse)
    (h : get_account_balances db account_id = Except.ok resp) :
    (∀ r ∈ db.trustlines, r.account_id = account_id →
      r.ledger_sequence = resp.ledger_sequence → r.balance ≤ 0 →
      r.asset_issuer ≠ "native" → shapeToken r ∉ resp.balances) ∧
    (∀ r ∈ db.native_balances, r.account_id = account_id →
      r.ledger_sequence = resp.ledger_sequence → shapeNative r ∈ resp.balances) := by
  obtain ⟨hm, hb⟩ := get_account_balances_ok db account_id resp h
  constructor
  · intro r hr h1 h2 hble hiss hmem
    rw [hb] at hmem
    rcases List.mem_append.mp hmem with hx | ht
    · rcases (mem_xlmRows db account_id resp.ledger_sequence (shapeToken r)).mp hx with
        ⟨r0, _, _, _, he⟩
      have h3 : (shapeNative r0).asset_issuer = (shapeToken r).asset_issuer :=
        congrArg BalanceEntry.asset_issuer he
      simp only [shapeNative, shapeToken] at h3
      exact hiss h3.symm
    · rcases (mem_tokenRows db account_id resp.ledger_sequence (shapeToken r)).mp ht with
        ⟨r0, _, _, _, hpos, he⟩
      have h3 : (shapeToken r0).balance = (shapeToken r).balance :=
        congrArg BalanceEntry.balance he
      simp only [shapeToken] at h3
      have h4 : r0.balance = r.balance := by
        field_simp at h3
        exact h3
      omega
  · intro r hr h1 h2
    rw [hb]
    exact List.mem_append.mpr
      (Or.inl ((mem_xlmRows db account_id resp.ledger_sequence (shapeNative r)).mpr
        ⟨r, hr, h1, h2, rfl⟩))

/-- Catalog state for the C9 witness: a native row with balance 0, a
zero-balance trustline and a positive trustline, all at sequence 5. -/
def posOnlyDB : DB :=
  { native_balances := [⟨"GACC", 0, 0, 0, 5⟩],
    trustlines := [⟨"GACC", "BAD", "GI", 0, 0, 0, true, 5⟩,
                   ⟨"GACC", "GOOD", "GI", 9, 0, 0, true, 5⟩],
    ledgers := [] }

/-- The response `get_account_balances posOnlyDB "GACC"` produces: the
zero-balance trustline is filtered out, the zero-balance native row is
kept. -/
def posOnlyResp : BalancesResponse :=
  { account_id := "GACC",
    ledger_sequence := 5,
    balances := [shapeNative ⟨"GACC", 0, 0, 0, 5⟩,
                 shapeToken ⟨"GACC", "GOOD", "GI", 9, 0, 0, true, 5⟩],
    count := 2 }

/-- Witness for C9: the zero-balance trustline row is absent from a
concrete answer and the zero-balance native row is present. -/
theorem balances_positive_trustlines_only_witness :
    shapeToken ⟨"GACC", "BAD", "GI", 0, 0, 0, true, 5⟩ ∉ posOnlyResp.balances ∧
    shapeNative ⟨"GACC", 0, 0, 0, 5⟩ ∈ posOnlyResp.balances :=
  ⟨(balances_positive_trustlines_only posOnlyDB "GACC" posOnlyResp rfl).1
      ⟨"GACC", "BAD", "GI", 0, 0, 0, true, 5⟩ (by decide) rfl rfl (by decide) (by decide),
   (balances_positive_trustlines_only posOnlyDB "GACC" posOnlyResp rfl).2
      ⟨"GACC", 0, 0, 0, 5⟩ (by decide) rfl rfl⟩

/-- C6: the XLM query's `available` expression subtracts the integer
columns before the one division by the double literal, but the
trustline query's `available` expression casts every operand to DOUBLE
before subtracting — the fixed-point-subtraction-first rule fails for
trustline rows (only in the idealised rounding-free model do both
expressions evaluate to balance minus liabilities over 10^7). -/
theorem trustline_available_cast_before_sub :
    intSubOnly nativeAvailableExpr = true ∧
    intSubOnly trustlineAvailableExpr = false ∧
    ∀ env : String → Int,
      evalQ env trustlineAvailableExpr =
        ((env "balance" : ℚ) - (env "buying_liabilities" : ℚ)
          - (env "selling_liabilities" : ℚ)) / 10000000 ∧
      evalQ env nativeAvailableExpr =
        ((env "balance" : ℚ) - (env "buying_liabilities" : ℚ)
          - (env "selling_liabilities" : ℚ)) / 10000000 :=
  ⟨rfl, rfl, fun _ => ⟨rfl, rfl⟩⟩

/-- Catalog state for C7 with an entirely empty trustline table. -/
def holdersEmptyDB : DB :=
  { native_balances := [], trustlines := [], ledgers := [] }

/-- Catalog state for C7 with trustline rows, none for the queried
asset. -/
def holdersNoMatchDB : DB :=
  { native_balances := [],
    trustlines := [⟨"GACC", "EURT", "GISS", 5, 0, 0, true, 12⟩],
    ledgers := [] }

/-- C7: with a non-empty trustline table and no row for the asset,
`GET /assets/(code)/holders` does return an empty holders list; but
with an entirely empty table the unchecked `fetchone()[0]` resolution
is NULL, the handler still issues the holders query with the absent
sequence spliced into the text, and the request fails as a 500 instead
of returning an empty list. -/
theorem holders_empty_table_errors :
    get_asset_holders holdersEmptyDB "USDC" 20 0 =
      Except.error ApiError.queryError500 ∧
    get_asset_holders holdersNoMatchDB "USDC" 20 0 =
      Except.ok { asset_code := "USDC", ledger_sequence := 12,
                  holders := [], count := 0 } :=
  ⟨rfl, rfl⟩

/-- Catalog state for C8: the only ledger row is below the 950000
window, so the stats query aggregates zero rows. -/
def statsEmptyDB : DB :=
  { native_balances := [], trustlines := [],
    ledgers := [⟨100, 3, 2, 1⟩] }

/-- Counterexample to C8 as stated: over an empty window the handler
returns NULL (absent), not zero, for every aggregate except the row
count. -/
theorem network_stats_nulls_counterexample :
    (get_network_stats statsEmptyDB).ledger_count = 0 ∧
    (get_network_stats statsEmptyDB).first_ledger = none ∧
    (get_network_stats statsEmptyDB).last_ledger = none ∧
    (get_network_stats statsEmptyDB).total_transactions = none ∧
    (get_network_stats statsEmptyDB).successful_transactions = none ∧
    (get_network_stats statsEmptyDB).failed_transactions = none ∧
    (get_network_stats statsEmptyDB).avg_tx_per_ledger = none ∧
    (get_network_stats statsEmptyDB).first_ledger ≠ some 0 := by
  refine ⟨rfl, rfl, rfl, rfl, rfl, rfl, rfl, ?_⟩
  decide

/-- C8 as amended: when no ledger row matches the recent window,
`GET /stats/network` succeeds with a zero row count and NULL (absent)
first/last ledger, transaction totals and average — not an error. -/
theorem network_stats_empty_window (db : DB)
    (h : recentRows db = []) :
    get_network_stats db =
      { ledger_count := 0, first_ledger := none, last_ledger := none,
        total_transactions := none, successful_transactions := none,
        failed_transactions := none, avg_tx_per_ledger := none } := by
  unfold get_network_stats
  rw [h]
  rfl

/-- Witness for the amended C8 at a concrete catalog state. -/
theorem network_stats_empty_window_witness :
    get_network_stats statsEmptyDB =
      { ledger_count := 0, first_ledger := none, last_ledger := none,
        total_transactions := none, successful_transactions := none,
        failed_transactions := none, avg_tx_per_ledger := none } :=
  network_stats_empty_window statsEmptyDB rfl

end DuckLakeGateway
